import Mathlib

/-!
Verification of the StuntGuard stunting-prediction core (`src/app.py`).

The Python program computes a WHO height-for-age z-score from a fixed
reference table with age interpolation, classifies the z-score into three
WHO categories, derives a BMI, and wraps an opaque trained model that
returns a stunting probability.  Numeric values are embedded as exact
rationals (`ℚ`); the decimal literals of the Python source are exact in
this representation.
-/

/-- Sex of the child, `'M'` or `'F'` in the source. -/
inductive Sex
  | M
  | F
deriving DecidableEq, Repr, Fintype

/-- The WHO classification strings produced by `predict_stunting`
(`'Severely stunted (WHO)'`, `'Stunted (WHO)'`, `'Not stunted (WHO)'`). -/
inductive WhoClass
  | SeverelyStunted
  | Stunted
  | Normal
deriving DecidableEq, Repr

/-- The anchor ages of the `references` dict in `get_height_for_age_reference`,
in the insertion order of the Python source (already sorted ascending), so this
list is both `references.keys()` and `sorted(references.keys())`. -/
def childAnchors : List ℚ := [0, 3, 6, 9, 12, 18, 24, 36, 48, 60]

/-- The `references` dict: for an anchor age, the tuple
`(male median, male SD, female median, female SD)`; ages outside the table
never reach this lookup in the source (dict access would raise there). -/
def refValues (a : ℚ) : ℚ × ℚ × ℚ × ℚ :=
  if a = 0 then (49.9, 1.9, 49.1, 1.9)
  else if a = 3 then (61.4, 2.4, 59.8, 2.4)
  else if a = 6 then (67.6, 2.5, 65.7, 2.5)
  else if a = 9 then (72.3, 2.7, 70.4, 2.7)
  else if a = 12 then (76.0, 2.8, 74.3, 2.8)
  else if a = 18 then (82.4, 3.1, 80.7, 3.1)
  else if a = 24 then (87.8, 3.4, 86.4, 3.4)
  else if a = 36 then (96.1, 3.8, 95.1, 3.9)
  else if a = 48 then (102.9, 4.2, 101.9, 4.3)
  else if a = 60 then (109.1, 4.5, 108.4, 4.6)
  else (0, 0, 0, 0)

/-- Select the `(median, SD)` pair for a sex, mirroring the
`if sex == 'M': ... else: ...` returns in the source. -/
def sexSelect (sex : Sex) (v : ℚ × ℚ × ℚ × ℚ) : ℚ × ℚ :=
  match sex with
  | .M => (v.1, v.2.1)
  | .F => (v.2.2.1, v.2.2.2)

/-- Python `min(keys, key=lambda x: abs(x - age))`: scan the keys keeping the
first element whose key value is minimal (a later element replaces the current
best only when its key is strictly smaller). -/
def pickClosest (age : ℚ) : ℚ → List ℚ → ℚ
  | best, [] => best
  | best, k :: ks => pickClosest age (if |k - age| < |best - age| then k else best) ks

/-- Python `closest_age = min(references.keys(), key=lambda x: abs(x - age_months))`. -/
def closest_age (age : ℚ) : ℚ :=
  pickClosest age 0 [3, 6, 9, 12, 18, 24, 36, 48, 60]

/-- Python `list.index`: position of the first occurrence. The source only
calls it on values present in the list. -/
def idxOf (a : ℚ) : List ℚ → ℕ
  | [] => 0
  | k :: ks => if k = a then 0 else idxOf a ks + 1

/-- Linear interpolation step of `get_height_for_age_reference`: with
`w = (age - lowAge) / (highAge - lowAge)`, return
`(m1 + w*(m2 - m1), sd1 + w*(sd2 - sd1))` where `(m1, sd1)` comes from the
low anchor and `(m2, sd2)` from the high anchor. -/
def interpPair (sex : Sex) (lowAge highAge age : ℚ) : ℚ × ℚ :=
  let p1 := sexSelect sex (refValues lowAge)
  let p2 := sexSelect sex (refValues highAge)
  let w := (age - lowAge) / (highAge - lowAge)
  (p1.1 + w * (p2.1 - p1.1), p1.2 + w * (p2.2 - p1.2))

/-- The function `get_height_for_age_reference(age_months, sex)` from `src/app.py`:
nearest-anchor lookup with linear interpolation between the bracketing
anchors when the nearest anchor is within 12 months and not exact. -/
def get_height_for_age_reference (age : ℚ) (sex : Sex) : ℚ × ℚ :=
  let closest := closest_age age
  if closest ≠ age ∧ |closest - age| ≤ 12 then
    let idx := idxOf closest childAnchors
    if closest < age ∧ idx < childAnchors.length - 1 then
      interpPair sex closest (childAnchors.getD (idx + 1) 0) age
    else if age < closest ∧ 0 < idx then
      interpPair sex (childAnchors.getD (idx - 1) 0) closest age
    else
      sexSelect sex (refValues closest)
  else
    sexSelect sex (refValues closest)

/-- Which control-flow branch of `get_height_for_age_reference` handles a
given age: the guard structure of `lookupBranch` is the guard structure of
`get_height_for_age_reference`, with each return site tagged. -/
inductive LookupBranch
  | exactAnchor
  | interpolated (lowAge highAge : ℚ)
  | farFallback
  | edgeFallback
deriving DecidableEq, Repr

/-- The branch of `get_height_for_age_reference` taken for a given age
(sex only selects columns, it does not affect control flow). -/
def lookupBranch (age : ℚ) : LookupBranch :=
  let closest := closest_age age
  if closest ≠ age ∧ |closest - age| ≤ 12 then
    let idx := idxOf closest childAnchors
    if closest < age ∧ idx < childAnchors.length - 1 then
      .interpolated closest (childAnchors.getD (idx + 1) 0)
    else if age < closest ∧ 0 < idx then
      .interpolated (childAnchors.getD (idx - 1) 0) closest
    else
      .edgeFallback
  else if closest = age then .exactAnchor
  else .farFallback

/-- The function `calculate_height_for_age_z(row)`: `(height - median) / sd` with
`(median, sd) = get_height_for_age_reference(age, sex)`. -/
def calculate_height_for_age_z (height age : ℚ) (sex : Sex) : ℚ :=
  let p := get_height_for_age_reference age sex
  (height - p.1) / p.2

/-- The z-score classification of `predict_stunting` (lines 141–149):
`z < -3` → severely stunted / Yes; `elif z < -2` → stunted / Yes;
`else` → not stunted / No. -/
def classify (z : ℚ) : WhoClass × Bool :=
  if z < -3 then (.SeverelyStunted, true)
  else if z < -2 then (.Stunted, true)
  else (.Normal, false)

/-- The feature `BMI = Body Weight / ((Body Length / 100) ** 2)`. -/
def bmi (weight length : ℚ) : ℚ :=
  weight / (length / 100) ^ 2

/-- One input row: the fields of the `input_data` DataFrame. -/
structure ChildRecord where
  sex : Sex
  age : ℚ
  birth_weight : ℚ
  birth_length : ℚ
  body_weight : ℚ
  body_length : ℚ
  asi_eksklusif : Bool
deriving DecidableEq, Repr

/-- The dict returned by `predict_stunting`. -/
structure PredictionResult where
  stunting_probability : ℚ
  stunting_prediction : Bool
  who_classification : WhoClass
  height_for_age_z_score : ℚ
  bmi : ℚ
deriving DecidableEq, Repr

/-- Assembly of the `predict_stunting` result for one row, with the opaque
model-plus-preprocessor probability passed in as `p`. -/
def mkResult (p : ℚ) (r : ChildRecord) : PredictionResult :=
  let b := bmi r.body_weight r.body_length
  let z := calculate_height_for_age_z r.body_length r.age r.sex
  let c := classify z
  { stunting_probability := p
    stunting_prediction := c.2
    who_classification := c.1
    height_for_age_z_score := z
    bmi := b }

/-- The function `predict_stunting(data, model, preprocessor)` with the opaque trained
model and preprocessor abstracted as a total scorer `score`. -/
def predict_stunting (score : ChildRecord → ℚ) (r : ChildRecord) : PredictionResult :=
  mkResult (score r) r

/-- Failures the opaque preprocessor/model can raise on a row (e.g. sklearn's
unknown-category error in `preprocessor.transform`). -/
inductive PredError
  | unknownCategory
deriving DecidableEq, Repr

/-- Variant of `predict_stunting` when the opaque scorer may raise: the z-score,
classification and BMI are computed first (they cannot raise for numeric
input), then the scorer is consulted; its exception propagates. -/
def predict_stunting_E (score : ChildRecord → Except PredError ℚ)
    (r : ChildRecord) : Except PredError PredictionResult :=
  match score r with
  | .error e => .error e
  | .ok p => .ok (mkResult p r)

/-- The batch loop of `main` (lines 343–350) together with the single
`try/except` that encloses it (lines 334, 386–387): rows are processed in
order and the results accumulated; an exception raised while processing any
row propagates to the `except` handler, which discards the accumulated
results and reports one error for the whole batch. -/
def run_batch (score : ChildRecord → Except PredError ℚ) :
    List ChildRecord → Except PredError (List PredictionResult)
  | [] => .ok []
  | r :: rs =>
    match predict_stunting_E score r with
    | .error e => .error e
    | .ok res =>
      match run_batch score rs with
      | .error e => .error e
      | .ok others => .ok (res :: others)

/-- The lower anchor of the `i`-th adjacent pair of anchor ages
(`sorted(references.keys())[i]`). -/
def lowAnchor (i : Fin 9) : ℚ :=
  match (i : ℕ) with
  | 0 => 0
  | 1 => 3
  | 2 => 6
  | 3 => 9
  | 4 => 12
  | 5 => 18
  | 6 => 24
  | 7 => 36
  | _ => 48

/-- The upper anchor of the `i`-th adjacent pair of anchor ages
(`sorted(references.keys())[i+1]`). -/
def highAnchor (i : Fin 9) : ℚ :=
  match (i : ℕ) with
  | 0 => 3
  | 1 => 6
  | 2 => 9
  | 3 => 12
  | 4 => 18
  | 5 => 24
  | 6 => 36
  | 7 => 48
  | _ => 60

/-- The `i`-th anchor age (`sorted(references.keys())[i]`). -/
def anchorAge (i : Fin 10) : ℚ :=
  match (i : ℕ) with
  | 0 => 0
  | 1 => 3
  | 2 => 6
  | 3 => 9
  | 4 => 12
  | 5 => 18
  | 6 => 24
  | 7 => 36
  | 8 => 48
  | _ => 60

/-- A concrete male record (the app's "Contoh Normal" example values). -/
def recM : ChildRecord :=
  { sex := .M, age := 12, birth_weight := 3.2, birth_length := 50,
    body_weight := 9.5, body_length := 75, asi_eksklusif := true }

/-- A concrete female record (the app's "Contoh Stunting" example values). -/
def recF : ChildRecord :=
  { sex := .F, age := 24, birth_weight := 2.3, birth_length := 47,
    body_weight := 8.5, body_length := 79, asi_eksklusif := false }

/-- A scorer whose preprocessing raises on female rows: stands for an opaque
preprocessor that fails on a category value not seen at training time. -/
def errScore : ChildRecord → Except PredError ℚ :=
  fun r => if r.sex = .F then .error .unknownCategory else .ok (1 / 2)

theorem pickClosest_nil (age best : ℚ) : pickClosest age best [] = best := rfl

theorem pickClosest_replace (age best k : ℚ) (ks : List ℚ)
    (h : |k - age| < |best - age|) :
    pickClosest age best (k :: ks) = pickClosest age k ks := by
  rw [pickClosest, if_pos h]

theorem pickClosest_keep (age best k : ℚ) (ks : List ℚ)
    (h : ¬ |k - age| < |best - age|) :
    pickClosest age best (k :: ks) = pickClosest age best ks := by
  rw [pickClosest, if_neg h]

theorem lowAnchor_lt_highAnchor (i : Fin 9) : lowAnchor i < highAnchor i := by
  fin_cases i <;> norm_num [lowAnchor, highAnchor]

theorem gap_le_twelve (i : Fin 9) : highAnchor i ≤ lowAnchor i + 12 := by
  fin_cases i <;> norm_num [lowAnchor, highAnchor]

theorem dist_lt_below {a b c : ℚ} (h1 : c < b) (h2 : b ≤ a) : |b - a| < |c - a| := by
  rw [abs_of_nonpos (by linarith), abs_of_nonpos (by linarith)]
  linarith

theorem dist_lt_mixed {a b c : ℚ} (h1 : a ≤ b) (h2 : c ≤ a) (h3 : b + c < 2 * a) :
    |b - a| < |c - a| := by
  rw [abs_of_nonneg (by linarith), abs_of_nonpos (by linarith)]
  linarith

theorem dist_lt_mixed' {a b c : ℚ} (h1 : b ≤ a) (h2 : a ≤ c) (h3 : 2 * a < b + c) :
    |b - a| < |c - a| := by
  rw [abs_of_nonpos (by linarith), abs_of_nonneg (by linarith)]
  linarith

theorem dist_lt_above {a b c : ℚ} (h1 : a ≤ b) (h2 : b < c) : |b - a| < |c - a| := by
  rw [abs_of_nonneg (by linarith), abs_of_nonneg (by linarith)]
  linarith

theorem dist_le_below {a b c : ℚ} (h1 : b ≤ c) (h2 : c ≤ a) : |c - a| ≤ |b - a| := by
  rw [abs_of_nonpos (by linarith), abs_of_nonpos (by linarith)]
  linarith

theorem dist_le_mixed {a b c : ℚ} (h1 : c ≤ a) (h2 : a ≤ b) (h3 : 2 * a ≤ b + c) :
    |c - a| ≤ |b - a| := by
  rw [abs_of_nonpos (by linarith), abs_of_nonneg (by linarith)]
  linarith

theorem dist_le_mixed' {a b c : ℚ} (h1 : a ≤ c) (h2 : b ≤ a) (h3 : b + c ≤ 2 * a) :
    |c - a| ≤ |b - a| := by
  rw [abs_of_nonneg (by linarith), abs_of_nonpos (by linarith)]
  linarith

theorem dist_le_above {a b c : ℚ} (h1 : a ≤ c) (h2 : c ≤ b) : |c - a| ≤ |b - a| := by
  rw [abs_of_nonneg (by linarith), abs_of_nonneg (by linarith)]
  linarith

theorem pickClosest_replace_below (age best k : ℚ) (ks : List ℚ)
    (h1 : best < k) (h2 : k ≤ age) :
    pickClosest age best (k :: ks) = pickClosest age k ks :=
  pickClosest_replace _ _ _ _ (dist_lt_below h1 h2)

theorem pickClosest_replace_mixed (age best k : ℚ) (ks : List ℚ)
    (h1 : best ≤ age) (h2 : age ≤ k) (h3 : best + k < 2 * age) :
    pickClosest age best (k :: ks) = pickClosest age k ks :=
  pickClosest_replace _ _ _ _ (dist_lt_mixed h2 h1 (by linarith))

theorem pickClosest_keep_mixed (age best k : ℚ) (ks : List ℚ)
    (h1 : best ≤ age) (h2 : age ≤ k) (h3 : 2 * age ≤ best + k) :
    pickClosest age best (k :: ks) = pickClosest age best ks :=
  pickClosest_keep _ _ _ _ (not_lt.mpr (dist_le_mixed h1 h2 (by linarith)))

theorem pickClosest_keep_above (age best k : ℚ) (ks : List ℚ)
    (h1 : age ≤ best) (h2 : best ≤ k) :
    pickClosest age best (k :: ks) = pickClosest age best ks :=
  pickClosest_keep _ _ _ _ (not_lt.mpr (dist_le_above h1 h2))


/-- In the open interval (0, 3), ages at or below the midpoint resolve to
the lower anchor 0 (Python `min` keeps the earlier key on ties). -/
theorem closest_low_0 (age : ℚ) (h1 : 0 < age) (hm : 2 * age ≤ 3) :
    closest_age age = 0 := by
  rw [closest_age,
    pickClosest_keep_mixed age 0 3 _ (by linarith) (by linarith) (by linarith),
    pickClosest_keep_mixed age 0 6 _ (by linarith) (by linarith) (by linarith),
    pickClosest_keep_mixed age 0 9 _ (by linarith) (by linarith) (by linarith),
    pickClosest_keep_mixed age 0 12 _ (by linarith) (by linarith) (by linarith),
    pickClosest_keep_mixed age 0 18 _ (by linarith) (by linarith) (by linarith),
    pickClosest_keep_mixed age 0 24 _ (by linarith) (by linarith) (by linarith),
    pickClosest_keep_mixed age 0 36 _ (by linarith) (by linarith) (by linarith),
    pickClosest_keep_mixed age 0 48 _ (by linarith) (by linarith) (by linarith),
    pickClosest_keep_mixed age 0 60 _ (by linarith) (by linarith) (by linarith),
    pickClosest_nil]

/-- In the open interval (3, 6), ages at or below the midpoint resolve to
the lower anchor 3 (Python `min` keeps the earlier key on ties). -/
theorem closest_low_3 (age : ℚ) (h1 : 3 < age) (hm : 2 * age ≤ 9) :
    closest_age age = 3 := by
  rw [closest_age,
    pickClosest_replace_below age 0 3 _ (by norm_num) (by linarith),
    pickClosest_keep_mixed age 3 6 _ (by linarith) (by linarith) (by linarith),
    pickClosest_keep_mixed age 3 9 _ (by linarith) (by linarith) (by linarith),
    pickClosest_keep_mixed age 3 12 _ (by linarith) (by linarith) (by linarith),
    pickClosest_keep_mixed age 3 18 _ (by linarith) (by linarith) (by linarith),
    pickClosest_keep_mixed age 3 24 _ (by linarith) (by linarith) (by linarith),
    pickClosest_keep_mixed age 3 36 _ (by linarith) (by linarith) (by linarith),
    pickClosest_keep_mixed age 3 48 _ (by linarith) (by linarith) (by linarith),
    pickClosest_keep_mixed age 3 60 _ (by linarith) (by linarith) (by linarith),
    pickClosest_nil]

/-- In the open interval (6, 9), ages at or below the midpoint resolve to
the lower anchor 6 (Python `min` keeps the earlier key on ties). -/
theorem closest_low_6 (age : ℚ) (h1 : 6 < age) (hm : 2 * age ≤ 15) :
    closest_age age = 6 := by
  rw [closest_age,
    pickClosest_replace_below age 0 3 _ (by norm_num) (by linarith),
    pickClosest_replace_below age 3 6 _ (by norm_num) (by linarith),
    pickClosest_keep_mixed age 6 9 _ (by linarith) (by linarith) (by linarith),
    pickClosest_keep_mixed age 6 12 _ (by linarith) (by linarith) (by linarith),
    pickClosest_keep_mixed age 6 18 _ (by linarith) (by linarith) (by linarith),
    pickClosest_keep_mixed age 6 24 _ (by linarith) (by linarith) (by linarith),
    pickClosest_keep_mixed age 6 36 _ (by linarith) (by linarith) (by linarith),
    pickClosest_keep_mixed age 6 48 _ (by linarith) (by linarith) (by linarith),
    pickClosest_keep_mixed age 6 60 _ (by linarith) (by linarith) (by linarith),
    pickClosest_nil]

/-- In the open interval (9, 12), ages at or below the midpoint resolve to
the lower anchor 9 (Python `min` keeps the earlier key on ties). -/
theorem closest_low_9 (age : ℚ) (h1 : 9 < age) (hm : 2 * age ≤ 21) :
    closest_age age = 9 := by
  rw [closest_age,
    pickClosest_replace_below age 0 3 _ (by norm_num) (by linarith),
    pickClosest_replace_below age 3 6 _ (by norm_num) (by linarith),
    pickClosest_replace_below age 6 9 _ (by norm_num) (by linarith),
    pickClosest_keep_mixed age 9 12 _ (by linarith) (by linarith) (by linarith),
    pickClosest_keep_mixed age 9 18 _ (by linarith) (by linarith) (by linarith),
    pickClosest_keep_mixed age 9 24 _ (by linarith) (by linarith) (by linarith),
    pickClosest_keep_mixed age 9 36 _ (by linarith) (by linarith) (by linarith),
    pickClosest_keep_mixed age 9 48 _ (by linarith) (by linarith) (by linarith),
    pickClosest_keep_mixed age 9 60 _ (by linarith) (by linarith) (by linarith),
    pickClosest_nil]

/-- In the open interval (12, 18), ages at or below the midpoint resolve to
the lower anchor 12 (Python `min` keeps the earlier key on ties). -/
theorem closest_low_12 (age : ℚ) (h1 : 12 < age) (hm : 2 * age ≤ 30) :
    closest_age age = 12 := by
  rw [closest_age,
    pickClosest_replace_below age 0 3 _ (by norm_num) (by linarith),
    pickClosest_replace_below age 3 6 _ (by norm_num) (by linarith),
    pickClosest_replace_below age 6 9 _ (by norm_num) (by linarith),
    pickClosest_replace_below age 9 12 _ (by norm_num) (by linarith),
    pickClosest_keep_mixed age 12 18 _ (by linarith) (by linarith) (by linarith),
    pickClosest_keep_mixed age 12 24 _ (by linarith) (by linarith) (by linarith),
    pickClosest_keep_mixed age 12 36 _ (by linarith) (by linarith) (by linarith),
    pickClosest_keep_mixed age 12 48 _ (by linarith) (by linarith) (by linarith),
    pickClosest_keep_mixed age 12 60 _ (by linarith) (by linarith) (by linarith),
    pickClosest_nil]

/-- In the open interval (18, 24), ages at or below the midpoint resolve to
the lower anchor 18 (Python `min` keeps the earlier key on ties). -/
theorem closest_low_18 (age : ℚ) (h1 : 18 < age) (hm : 2 * age ≤ 42) :
    closest_age age = 18 := by
  rw [closest_age,
    pickClosest_replace_below age 0 3 _ (by norm_num) (by linarith),
    pickClosest_replace_below age 3 6 _ (by norm_num) (by linarith),
    pickClosest_replace_below age 6 9 _ (by norm_num) (by linarith),
    pickClosest_replace_below age 9 12 _ (by norm_num) (by linarith),
    pickClosest_replace_below age 12 18 _ (by norm_num) (by linarith),
    pickClosest_keep_mixed age 18 24 _ (by linarith) (by linarith) (by linarith),
    pickClosest_keep_mixed age 18 36 _ (by linarith) (by linarith) (by linarith),
    pickClosest_keep_mixed age 18 48 _ (by linarith) (by linarith) (by linarith),
    pickClosest_keep_mixed age 18 60 _ (by linarith) (by linarith) (by linarith),
    pickClosest_nil]

/-- In the open interval (24, 36), ages at or below the midpoint resolve to
the lower anchor 24 (Python `min` keeps the earlier key on ties). -/
theorem closest_low_24 (age : ℚ) (h1 : 24 < age) (hm : 2 * age ≤ 60) :
    closest_age age = 24 := by
  rw [closest_age,
    pickClosest_replace_below age 0 3 _ (by norm_num) (by linarith),
    pickClosest_replace_below age 3 6 _ (by norm_num) (by linarith),
    pickClosest_replace_below age 6 9 _ (by norm_num) (by linarith),
    pickClosest_replace_below age 9 12 _ (by norm_num) (by linarith),
    pickClosest_replace_below age 12 18 _ (by norm_num) (by linarith),
    pickClosest_replace_below age 18 24 _ (by norm_num) (by linarith),
    pickClosest_keep_mixed age 24 36 _ (by linarith) (by linarith) (by linarith),
    pickClosest_keep_mixed age 24 48 _ (by linarith) (by linarith) (by linarith),
    pickClosest_keep_mixed age 24 60 _ (by linarith) (by linarith) (by linarith),
    pickClosest_nil]

/-- In the open interval (36, 48), ages at or below the midpoint resolve to
the lower anchor 36 (Python `min` keeps the earlier key on ties). -/
theorem closest_low_36 (age : ℚ) (h1 : 36 < age) (hm : 2 * age ≤ 84) :
    closest_age age = 36 := by
  rw [closest_age,
    pickClosest_replace_below age 0 3 _ (by norm_num) (by linarith),
    pickClosest_replace_below age 3 6 _ (by norm_num) (by linarith),
    pickClosest_replace_below age 6 9 _ (by norm_num) (by linarith),
    pickClosest_replace_below age 9 12 _ (by norm_num) (by linarith),
    pickClosest_replace_below age 12 18 _ (by norm_num) (by linarith),
    pickClosest_replace_below age 18 24 _ (by norm_num) (by linarith),
    pickClosest_replace_below age 24 36 _ (by norm_num) (by linarith),
    pickClosest_keep_mixed age 36 48 _ (by linarith) (by linarith) (by linarith),
    pickClosest_keep_mixed age 36 60 _ (by linarith) (by linarith) (by linarith),
    pickClosest_nil]

/-- In the open interval (48, 60), ages at or below the midpoint resolve to
the lower anchor 48 (Python `min` keeps the earlier key on ties). -/
theorem closest_low_48 (age : ℚ) (h1 : 48 < age) (hm : 2 * age ≤ 108) :
    closest_age age = 48 := by
  rw [closest_age,
    pickClosest_replace_below age 0 3 _ (by norm_num) (by linarith),
    pickClosest_replace_below age 3 6 _ (by norm_num) (by linarith),
    pickClosest_replace_below age 6 9 _ (by norm_num) (by linarith),
    pickClosest_replace_below age 9 12 _ (by norm_num) (by linarith),
    pickClosest_replace_below age 12 18 _ (by norm_num) (by linarith),
    pickClosest_replace_below age 18 24 _ (by norm_num) (by linarith),
    pickClosest_replace_below age 24 36 _ (by norm_num) (by linarith),
    pickClosest_replace_below age 36 48 _ (by norm_num) (by linarith),
    pickClosest_keep_mixed age 48 60 _ (by linarith) (by linarith) (by linarith),
    pickClosest_nil]

/-- In the open interval (0, 3), ages strictly above the midpoint resolve
to the upper anchor 3. -/
theorem closest_high_3 (age : ℚ) (h2 : age < 3) (hm : 3 < 2 * age) :
    closest_age age = 3 := by
  rw [closest_age,
    pickClosest_replace_mixed age 0 3 _ (by linarith) (by linarith) (by linarith),
    pickClosest_keep_above age 3 6 _ (by linarith) (by norm_num),
    pickClosest_keep_above age 3 9 _ (by linarith) (by norm_num),
    pickClosest_keep_above age 3 12 _ (by linarith) (by norm_num),
    pickClosest_keep_above age 3 18 _ (by linarith) (by norm_num),
    pickClosest_keep_above age 3 24 _ (by linarith) (by norm_num),
    pickClosest_keep_above age 3 36 _ (by linarith) (by norm_num),
    pickClosest_keep_above age 3 48 _ (by linarith) (by norm_num),
    pickClosest_keep_above age 3 60 _ (by linarith) (by norm_num),
    pickClosest_nil]

/-- In the open interval (3, 6), ages strictly above the midpoint resolve
to the upper anchor 6. -/
theorem closest_high_6 (age : ℚ) (h2 : age < 6) (hm : 9 < 2 * age) :
    closest_age age = 6 := by
  rw [closest_age,
    pickClosest_replace_below age 0 3 _ (by norm_num) (by linarith),
    pickClosest_replace_mixed age 3 6 _ (by linarith) (by linarith) (by linarith),
    pickClosest_keep_above age 6 9 _ (by linarith) (by norm_num),
    pickClosest_keep_above age 6 12 _ (by linarith) (by norm_num),
    pickClosest_keep_above age 6 18 _ (by linarith) (by norm_num),
    pickClosest_keep_above age 6 24 _ (by linarith) (by norm_num),
    pickClosest_keep_above age 6 36 _ (by linarith) (by norm_num),
    pickClosest_keep_above age 6 48 _ (by linarith) (by norm_num),
    pickClosest_keep_above age 6 60 _ (by linarith) (by norm_num),
    pickClosest_nil]

/-- In the open interval (6, 9), ages strictly above the midpoint resolve
to the upper anchor 9. -/
theorem closest_high_9 (age : ℚ) (h2 : age < 9) (hm : 15 < 2 * age) :
    closest_age age = 9 := by
  rw [closest_age,
    pickClosest_replace_below age 0 3 _ (by norm_num) (by linarith),
    pickClosest_replace_below age 3 6 _ (by norm_num) (by linarith),
    pickClosest_replace_mixed age 6 9 _ (by linarith) (by linarith) (by linarith),
    pickClosest_keep_above age 9 12 _ (by linarith) (by norm_num),
    pickClosest_keep_above age 9 18 _ (by linarith) (by norm_num),
    pickClosest_keep_above age 9 24 _ (by linarith) (by norm_num),
    pickClosest_keep_above age 9 36 _ (by linarith) (by norm_num),
    pickClosest_keep_above age 9 48 _ (by linarith) (by norm_num),
    pickClosest_keep_above age 9 60 _ (by linarith) (by norm_num),
    pickClosest_nil]

/-- In the open interval (9, 12), ages strictly above the midpoint resolve
to the upper anchor 12. -/
theorem closest_high_12 (age : ℚ) (h2 : age < 12) (hm : 21 < 2 * age) :
    closest_age age = 12 := by
  rw [closest_age,
    pickClosest_replace_below age 0 3 _ (by norm_num) (by linarith),
    pickClosest_replace_below age 3 6 _ (by norm_num) (by linarith),
    pickClosest_replace_below age 6 9 _ (by norm_num) (by linarith),
    pickClosest_replace_mixed age 9 12 _ (by linarith) (by linarith) (by linarith),
    pickClosest_keep_above age 12 18 _ (by linarith) (by norm_num),
    pickClosest_keep_above age 12 24 _ (by linarith) (by norm_num),
    pickClosest_keep_above age 12 36 _ (by linarith) (by norm_num),
    pickClosest_keep_above age 12 48 _ (by linarith) (by norm_num),
    pickClosest_keep_above age 12 60 _ (by linarith) (by norm_num),
    pickClosest_nil]

/-- In the open interval (12, 18), ages strictly above the midpoint resolve
to the upper anchor 18. -/
theorem closest_high_18 (age : ℚ) (h2 : age < 18) (hm : 30 < 2 * age) :
    closest_age age = 18 := by
  rw [closest_age,
    pickClosest_replace_below age 0 3 _ (by norm_num) (by linarith),
    pickClosest_replace_below age 3 6 _ (by norm_num) (by linarith),
    pickClosest_replace_below age 6 9 _ (by norm_num) (by linarith),
    pickClosest_replace_below age 9 12 _ (by norm_num) (by linarith),
    pickClosest_replace_mixed age 12 18 _ (by linarith) (by linarith) (by linarith),
    pickClosest_keep_above age 18 24 _ (by linarith) (by norm_num),
    pickClosest_keep_above age 18 36 _ (by linarith) (by norm_num),
    pickClosest_keep_above age 18 48 _ (by linarith) (by norm_num),
    pickClosest_keep_above age 18 60 _ (by linarith) (by norm_num),
    pickClosest_nil]

/-- In the open interval (18, 24), ages strictly above the midpoint resolve
to the upper anchor 24. -/
theorem closest_high_24 (age : ℚ) (h2 : age < 24) (hm : 42 < 2 * age) :
    closest_age age = 24 := by
  rw [closest_age,
    pickClosest_replace_below age 0 3 _ (by norm_num) (by linarith),
    pickClosest_replace_below age 3 6 _ (by norm_num) (by linarith),
    pickClosest_replace_below age 6 9 _ (by norm_num) (by linarith),
    pickClosest_replace_below age 9 12 _ (by norm_num) (by linarith),
    pickClosest_replace_below age 12 18 _ (by norm_num) (by linarith),
    pickClosest_replace_mixed age 18 24 _ (by linarith) (by linarith) (by linarith),
    pickClosest_keep_above age 24 36 _ (by linarith) (by norm_num),
    pickClosest_keep_above age 24 48 _ (by linarith) (by norm_num),
    pickClosest_keep_above age 24 60 _ (by linarith) (by norm_num),
    pickClosest_nil]

/-- In the open interval (24, 36), ages strictly above the midpoint resolve
to the upper anchor 36. -/
theorem closest_high_36 (age : ℚ) (h2 : age < 36) (hm : 60 < 2 * age) :
    closest_age age = 36 := by
  rw [closest_age,
    pickClosest_replace_below age 0 3 _ (by norm_num) (by linarith),
    pickClosest_replace_below age 3 6 _ (by norm_num) (by linarith),
    pickClosest_replace_below age 6 9 _ (by norm_num) (by linarith),
    pickClosest_replace_below age 9 12 _ (by norm_num) (by linarith),
    pickClosest_replace_below age 12 18 _ (by norm_num) (by linarith),
    pickClosest_replace_below age 18 24 _ (by norm_num) (by linarith),
    pickClosest_replace_mixed age 24 36 _ (by linarith) (by linarith) (by linarith),
    pickClosest_keep_above age 36 48 _ (by linarith) (by norm_num),
    pickClosest_keep_above age 36 60 _ (by linarith) (by norm_num),
    pickClosest_nil]

/-- In the open interval (36, 48), ages strictly above the midpoint resolve
to the upper anchor 48. -/
theorem closest_high_48 (age : ℚ) (h2 : age < 48) (hm : 84 < 2 * age) :
    closest_age age = 48 := by
  rw [closest_age,
    pickClosest_replace_below age 0 3 _ (by norm_num) (by linarith),
    pickClosest_replace_below age 3 6 _ (by norm_num) (by linarith),
    pickClosest_replace_below age 6 9 _ (by norm_num) (by linarith),
    pickClosest_replace_below age 9 12 _ (by norm_num) (by linarith),
    pickClosest_replace_below age 12 18 _ (by norm_num) (by linarith),
    pickClosest_replace_below age 18 24 _ (by norm_num) (by linarith),
    pickClosest_replace_below age 24 36 _ (by norm_num) (by linarith),
    pickClosest_replace_mixed age 36 48 _ (by linarith) (by linarith) (by linarith),
    pickClosest_keep_above age 48 60 _ (by linarith) (by norm_num),
    pickClosest_nil]

/-- In the open interval (48, 60), ages strictly above the midpoint resolve
to the upper anchor 60. -/
theorem closest_high_60 (age : ℚ) (h2 : age < 60) (hm : 108 < 2 * age) :
    closest_age age = 60 := by
  rw [closest_age,
    pickClosest_replace_below age 0 3 _ (by norm_num) (by linarith),
    pickClosest_replace_below age 3 6 _ (by norm_num) (by linarith),
    pickClosest_replace_below age 6 9 _ (by norm_num) (by linarith),
    pickClosest_replace_below age 9 12 _ (by norm_num) (by linarith),
    pickClosest_replace_below age 12 18 _ (by norm_num) (by linarith),
    pickClosest_replace_below age 18 24 _ (by norm_num) (by linarith),
    pickClosest_replace_below age 24 36 _ (by norm_num) (by linarith),
    pickClosest_replace_below age 36 48 _ (by norm_num) (by linarith),
    pickClosest_replace_mixed age 48 60 _ (by linarith) (by linarith) (by linarith),
    pickClosest_nil]

/-- An exact anchor age is its own nearest anchor. -/
theorem closest_anchor_0 : closest_age 0 = 0 := by
  rw [closest_age,
    pickClosest_keep_above (0 : ℚ) 0 3 _ (by norm_num) (by norm_num),
    pickClosest_keep_above (0 : ℚ) 0 6 _ (by norm_num) (by norm_num),
    pickClosest_keep_above (0 : ℚ) 0 9 _ (by norm_num) (by norm_num),
    pickClosest_keep_above (0 : ℚ) 0 12 _ (by norm_num) (by norm_num),
    pickClosest_keep_above (0 : ℚ) 0 18 _ (by norm_num) (by norm_num),
    pickClosest_keep_above (0 : ℚ) 0 24 _ (by norm_num) (by norm_num),
    pickClosest_keep_above (0 : ℚ) 0 36 _ (by norm_num) (by norm_num),
    pickClosest_keep_above (0 : ℚ) 0 48 _ (by norm_num) (by norm_num),
    pickClosest_keep_above (0 : ℚ) 0 60 _ (by norm_num) (by norm_num),
    pickClosest_nil]

/-- An exact anchor age is its own nearest anchor. -/
theorem closest_anchor_3 : closest_age 3 = 3 := by
  rw [closest_age,
    pickClosest_replace_below (3 : ℚ) 0 3 _ (by norm_num) (by norm_num),
    pickClosest_keep_above (3 : ℚ) 3 6 _ (by norm_num) (by norm_num),
    pickClosest_keep_above (3 : ℚ) 3 9 _ (by norm_num) (by norm_num),
    pickClosest_keep_above (3 : ℚ) 3 12 _ (by norm_num) (by norm_num),
    pickClosest_keep_above (3 : ℚ) 3 18 _ (by norm_num) (by norm_num),
    pickClosest_keep_above (3 : ℚ) 3 24 _ (by norm_num) (by norm_num),
    pickClosest_keep_above (3 : ℚ) 3 36 _ (by norm_num) (by norm_num),
    pickClosest_keep_above (3 : ℚ) 3 48 _ (by norm_num) (by norm_num),
    pickClosest_keep_above (3 : ℚ) 3 60 _ (by norm_num) (by norm_num),
    pickClosest_nil]

/-- An exact anchor age is its own nearest anchor. -/
theorem closest_anchor_6 : closest_age 6 = 6 := by
  rw [closest_age,
    pickClosest_replace_below (6 : ℚ) 0 3 _ (by norm_num) (by norm_num),
    pickClosest_replace_below (6 : ℚ) 3 6 _ (by norm_num) (by norm_num),
    pickClosest_keep_above (6 : ℚ) 6 9 _ (by norm_num) (by norm_num),
    pickClosest_keep_above (6 : ℚ) 6 12 _ (by norm_num) (by norm_num),
    pickClosest_keep_above (6 : ℚ) 6 18 _ (by norm_num) (by norm_num),
    pickClosest_keep_above (6 : ℚ) 6 24 _ (by norm_num) (by norm_num),
    pickClosest_keep_above (6 : ℚ) 6 36 _ (by norm_num) (by norm_num),
    pickClosest_keep_above (6 : ℚ) 6 48 _ (by norm_num) (by norm_num),
    pickClosest_keep_above (6 : ℚ) 6 60 _ (by norm_num) (by norm_num),
    pickClosest_nil]

/-- An exact anchor age is its own nearest anchor. -/
theorem closest_anchor_9 : closest_age 9 = 9 := by
  rw [closest_age,
    pickClosest_replace_below (9 : ℚ) 0 3 _ (by norm_num) (by norm_num),
    pickClosest_replace_below (9 : ℚ) 3 6 _ (by norm_num) (by norm_num),
    pickClosest_replace_below (9 : ℚ) 6 9 _ (by norm_num) (by norm_num),
    pickClosest_keep_above (9 : ℚ) 9 12 _ (by norm_num) (by norm_num),
    pickClosest_keep_above (9 : ℚ) 9 18 _ (by norm_num) (by norm_num),
    pickClosest_keep_above (9 : ℚ) 9 24 _ (by norm_num) (by norm_num),
    pickClosest_keep_above (9 : ℚ) 9 36 _ (by norm_num) (by norm_num),
    pickClosest_keep_above (9 : ℚ) 9 48 _ (by norm_num) (by norm_num),
    pickClosest_keep_above (9 : ℚ) 9 60 _ (by norm_num) (by norm_num),
    pickClosest_nil]

/-- An exact anchor age is its own nearest anchor. -/
theorem closest_anchor_12 : closest_age 12 = 12 := by
  rw [closest_age,
    pickClosest_replace_below (12 : ℚ) 0 3 _ (by norm_num) (by norm_num),
    pickClosest_replace_below (12 : ℚ) 3 6 _ (by norm_num) (by norm_num),
    pickClosest_replace_below (12 : ℚ) 6 9 _ (by norm_num) (by norm_num),
    pickClosest_replace_below (12 : ℚ) 9 12 _ (by norm_num) (by norm_num),
    pickClosest_keep_above (12 : ℚ) 12 18 _ (by norm_num) (by norm_num),
    pickClosest_keep_above (12 : ℚ) 12 24 _ (by norm_num) (by norm_num),
    pickClosest_keep_above (12 : ℚ) 12 36 _ (by norm_num) (by norm_num),
    pickClosest_keep_above (12 : ℚ) 12 48 _ (by norm_num) (by norm_num),
    pickClosest_keep_above (12 : ℚ) 12 60 _ (by norm_num) (by norm_num),
    pickClosest_nil]

/-- An exact anchor age is its own nearest anchor. -/
theorem closest_anchor_18 : closest_age 18 = 18 := by
  rw [closest_age,
    pickClosest_replace_below (18 : ℚ) 0 3 _ (by norm_num) (by norm_num),
    pickClosest_replace_below (18 : ℚ) 3 6 _ (by norm_num) (by norm_num),
    pickClosest_replace_below (18 : ℚ) 6 9 _ (by norm_num) (by norm_num),
    pickClosest_replace_below (18 : ℚ) 9 12 _ (by norm_num) (by norm_num),
    pickClosest_replace_below (18 : ℚ) 12 18 _ (by norm_num) (by norm_num),
    pickClosest_keep_above (18 : ℚ) 18 24 _ (by norm_num) (by norm_num),
    pickClosest_keep_above (18 : ℚ) 18 36 _ (by norm_num) (by norm_num),
    pickClosest_keep_above (18 : ℚ) 18 48 _ (by norm_num) (by norm_num),
    pickClosest_keep_above (18 : ℚ) 18 60 _ (by norm_num) (by norm_num),
    pickClosest_nil]

/-- An exact anchor age is its own nearest anchor. -/
theorem closest_anchor_24 : closest_age 24 = 24 := by
  rw [closest_age,
    pickClosest_replace_below (24 : ℚ) 0 3 _ (by norm_num) (by norm_num),
    pickClosest_replace_below (24 : ℚ) 3 6 _ (by norm_num) (by norm_num),
    pickClosest_replace_below (24 : ℚ) 6 9 _ (by norm_num) (by norm_num),
    pickClosest_replace_below (24 : ℚ) 9 12 _ (by norm_num) (by norm_num),
    pickClosest_replace_below (24 : ℚ) 12 18 _ (by norm_num) (by norm_num),
    pickClosest_replace_below (24 : ℚ) 18 24 _ (by norm_num) (by norm_num),
    pickClosest_keep_above (24 : ℚ) 24 36 _ (by norm_num) (by norm_num),
    pickClosest_keep_above (24 : ℚ) 24 48 _ (by norm_num) (by norm_num),
    pickClosest_keep_above (24 : ℚ) 24 60 _ (by norm_num) (by norm_num),
    pickClosest_nil]

/-- An exact anchor age is its own nearest anchor. -/
theorem closest_anchor_36 : closest_age 36 = 36 := by
  rw [closest_age,
    pickClosest_replace_below (36 : ℚ) 0 3 _ (by norm_num) (by norm_num),
    pickClosest_replace_below (36 : ℚ) 3 6 _ (by norm_num) (by norm_num),
    pickClosest_replace_below (36 : ℚ) 6 9 _ (by norm_num) (by norm_num),
    pickClosest_replace_below (36 : ℚ) 9 12 _ (by norm_num) (by norm_num),
    pickClosest_replace_below (36 : ℚ) 12 18 _ (by norm_num) (by norm_num),
    pickClosest_replace_below (36 : ℚ) 18 24 _ (by norm_num) (by norm_num),
    pickClosest_replace_below (36 : ℚ) 24 36 _ (by norm_num) (by norm_num),
    pickClosest_keep_above (36 : ℚ) 36 48 _ (by norm_num) (by norm_num),
    pickClosest_keep_above (36 : ℚ) 36 60 _ (by norm_num) (by norm_num),
    pickClosest_nil]

/-- An exact anchor age is its own nearest anchor. -/
theorem closest_anchor_48 : closest_age 48 = 48 := by
  rw [closest_age,
    pickClosest_replace_below (48 : ℚ) 0 3 _ (by norm_num) (by norm_num),
    pickClosest_replace_below (48 : ℚ) 3 6 _ (by norm_num) (by norm_num),
    pickClosest_replace_below (48 : ℚ) 6 9 _ (by norm_num) (by norm_num),
    pickClosest_replace_below (48 : ℚ) 9 12 _ (by norm_num) (by norm_num),
    pickClosest_replace_below (48 : ℚ) 12 18 _ (by norm_num) (by norm_num),
    pickClosest_replace_below (48 : ℚ) 18 24 _ (by norm_num) (by norm_num),
    pickClosest_replace_below (48 : ℚ) 24 36 _ (by norm_num) (by norm_num),
    pickClosest_replace_below (48 : ℚ) 36 48 _ (by norm_num) (by norm_num),
    pickClosest_keep_above (48 : ℚ) 48 60 _ (by norm_num) (by norm_num),
    pickClosest_nil]

/-- An exact anchor age is its own nearest anchor. -/
theorem closest_anchor_60 : closest_age 60 = 60 := by
  rw [closest_age,
    pickClosest_replace_below (60 : ℚ) 0 3 _ (by norm_num) (by norm_num),
    pickClosest_replace_below (60 : ℚ) 3 6 _ (by norm_num) (by norm_num),
    pickClosest_replace_below (60 : ℚ) 6 9 _ (by norm_num) (by norm_num),
    pickClosest_replace_below (60 : ℚ) 9 12 _ (by norm_num) (by norm_num),
    pickClosest_replace_below (60 : ℚ) 12 18 _ (by norm_num) (by norm_num),
    pickClosest_replace_below (60 : ℚ) 18 24 _ (by norm_num) (by norm_num),
    pickClosest_replace_below (60 : ℚ) 24 36 _ (by norm_num) (by norm_num),
    pickClosest_replace_below (60 : ℚ) 36 48 _ (by norm_num) (by norm_num),
    pickClosest_replace_below (60 : ℚ) 48 60 _ (by norm_num) (by norm_num),
    pickClosest_nil]

theorem closest_age_between (i : Fin 9) (age : ℚ)
    (h1 : lowAnchor i < age) (h2 : age < highAnchor i) :
    (2 * age ≤ lowAnchor i + highAnchor i ∧ closest_age age = lowAnchor i) ∨
    (lowAnchor i + highAnchor i < 2 * age ∧ closest_age age = highAnchor i) := by
  rcases le_or_lt (2 * age) (lowAnchor i + highAnchor i) with hm | hm
  · refine .inl ⟨hm, ?_⟩
    fin_cases i <;> norm_num [lowAnchor, highAnchor] at h1 h2 hm ⊢ <;>
      first
        | exact closest_low_0 age (by linarith) (by linarith)
        | exact closest_low_3 age (by linarith) (by linarith)
        | exact closest_low_6 age (by linarith) (by linarith)
        | exact closest_low_9 age (by linarith) (by linarith)
        | exact closest_low_12 age (by linarith) (by linarith)
        | exact closest_low_18 age (by linarith) (by linarith)
        | exact closest_low_24 age (by linarith) (by linarith)
        | exact closest_low_36 age (by linarith) (by linarith)
        | exact closest_low_48 age (by linarith) (by linarith)
  · refine .inr ⟨hm, ?_⟩
    fin_cases i <;> norm_num [lowAnchor, highAnchor] at h1 h2 hm ⊢ <;>
      first
        | exact closest_high_3 age (by linarith) (by linarith)
        | exact closest_high_6 age (by linarith) (by linarith)
        | exact closest_high_9 age (by linarith) (by linarith)
        | exact closest_high_12 age (by linarith) (by linarith)
        | exact closest_high_18 age (by linarith) (by linarith)
        | exact closest_high_24 age (by linarith) (by linarith)
        | exact closest_high_36 age (by linarith) (by linarith)
        | exact closest_high_48 age (by linarith) (by linarith)
        | exact closest_high_60 age (by linarith) (by linarith)

theorem closest_age_anchorAge (i : Fin 10) :
    closest_age (anchorAge i) = anchorAge i := by
  fin_cases i <;>
    first
      | exact closest_anchor_0
      | exact closest_anchor_3
      | exact closest_anchor_6
      | exact closest_anchor_9
      | exact closest_anchor_12
      | exact closest_anchor_18
      | exact closest_anchor_24
      | exact closest_anchor_36
      | exact closest_anchor_48
      | exact closest_anchor_60

theorem idxOf_lowAnchor (i : Fin 9) : idxOf (lowAnchor i) childAnchors = (i : ℕ) := by
  fin_cases i <;> norm_num [idxOf, childAnchors, lowAnchor]

theorem idxOf_highAnchor (i : Fin 9) : idxOf (highAnchor i) childAnchors = (i : ℕ) + 1 := by
  fin_cases i <;> norm_num [idxOf, childAnchors, highAnchor]

theorem getD_lowAnchor (i : Fin 9) : childAnchors.getD (i : ℕ) 0 = lowAnchor i := by
  fin_cases i <;> norm_num [childAnchors, lowAnchor]

theorem getD_highAnchor (i : Fin 9) : childAnchors.getD ((i : ℕ) + 1) 0 = highAnchor i := by
  fin_cases i <;> norm_num [childAnchors, highAnchor]

theorem lookup_eval_low (i : Fin 9) (age : ℚ)
    (h1 : lowAnchor i < age) (h2 : age < highAnchor i)
    (hc : closest_age age = lowAnchor i) (s : Sex) :
    get_height_for_age_reference age s = interpPair s (lowAnchor i) (highAnchor i) age := by
  have hgap := gap_le_twelve i
  simp only [get_height_for_age_reference, hc]
  rw [if_pos ⟨ne_of_lt h1, by rw [abs_of_nonpos (by linarith)]; linarith⟩]
  rw [idxOf_lowAnchor]
  rw [if_pos ⟨h1, by simpa [childAnchors] using i.isLt⟩]
  rw [getD_highAnchor]

theorem lookup_eval_high (i : Fin 9) (age : ℚ)
    (h1 : lowAnchor i < age) (h2 : age < highAnchor i)
    (hc : closest_age age = highAnchor i) (s : Sex) :
    get_height_for_age_reference age s = interpPair s (lowAnchor i) (highAnchor i) age := by
  have hgap := gap_le_twelve i
  simp only [get_height_for_age_reference, hc]
  rw [if_pos ⟨ne_of_gt h2, by rw [abs_of_nonneg (by linarith)]; linarith⟩]
  rw [idxOf_highAnchor]
  rw [if_neg (fun hx => absurd hx.1 (not_lt.mpr h2.le))]
  rw [if_pos ⟨h2, Nat.succ_pos _⟩]
  rw [Nat.add_sub_cancel, getD_lowAnchor]

theorem lookup_interp (i : Fin 9) (age : ℚ)
    (h1 : lowAnchor i < age) (h2 : age < highAnchor i) (s : Sex) :
    get_height_for_age_reference age s = interpPair s (lowAnchor i) (highAnchor i) age := by
  rcases closest_age_between i age h1 h2 with ⟨_, hc⟩ | ⟨_, hc⟩
  · exact lookup_eval_low i age h1 h2 hc s
  · exact lookup_eval_high i age h1 h2 hc s

theorem lookup_anchor (i : Fin 10) (s : Sex) :
    get_height_for_age_reference (anchorAge i) s = sexSelect s (refValues (anchorAge i)) := by
  simp only [get_height_for_age_reference, closest_age_anchorAge]
  rw [if_neg (by simp)]

theorem branch_eval_interp (i : Fin 9) (age : ℚ)
    (h1 : lowAnchor i < age) (h2 : age < highAnchor i) :
    lookupBranch age = .interpolated (lowAnchor i) (highAnchor i) := by
  have hgap := gap_le_twelve i
  rcases closest_age_between i age h1 h2 with ⟨_, hc⟩ | ⟨_, hc⟩
  · simp only [lookupBranch, hc]
    rw [if_pos ⟨ne_of_lt h1, by rw [abs_of_nonpos (by linarith)]; linarith⟩]
    rw [idxOf_lowAnchor]
    rw [if_pos ⟨h1, by simpa [childAnchors] using i.isLt⟩]
    rw [getD_highAnchor]
  · simp only [lookupBranch, hc]
    rw [if_pos ⟨ne_of_gt h2, by rw [abs_of_nonneg (by linarith)]; linarith⟩]
    rw [idxOf_highAnchor]
    rw [if_neg (fun hx => absurd hx.1 (not_lt.mpr h2.le))]
    rw [if_pos ⟨h2, Nat.succ_pos _⟩]
    rw [Nat.add_sub_cancel, getD_lowAnchor]

theorem branch_anchor (i : Fin 10) : lookupBranch (anchorAge i) = .exactAnchor := by
  simp only [lookupBranch, closest_age_anchorAge]
  rw [if_neg (by simp)]
  simp

theorem convex_le_left {a b w : ℚ} (hw0 : 0 ≤ w) (hab : a ≤ b) : a ≤ a + w * (b - a) := by
  nlinarith

theorem convex_le_right {a b w : ℚ} (hw1 : w ≤ 1) (hab : a ≤ b) : a + w * (b - a) ≤ b := by
  nlinarith

theorem table_facts (i : Fin 9) (s : Sex) :
    (sexSelect s (refValues (lowAnchor i))).1 ≤ (sexSelect s (refValues (highAnchor i))).1 ∧
    (sexSelect s (refValues (lowAnchor i))).2 ≤ (sexSelect s (refValues (highAnchor i))).2 ∧
    (1.9 : ℚ) ≤ (sexSelect s (refValues (lowAnchor i))).2 := by
  fin_cases i <;> cases s <;> norm_num [sexSelect, refValues, lowAnchor, highAnchor]

theorem anchor_sd (i : Fin 10) (s : Sex) :
    (1.9 : ℚ) ≤ (sexSelect s (refValues (anchorAge i))).2 := by
  fin_cases i <;> cases s <;> norm_num [sexSelect, refValues, anchorAge]

theorem anchor_mem (i : Fin 10) : anchorAge i ∈ childAnchors := by
  fin_cases i <;> norm_num [anchorAge, childAnchors]

theorem age_cases (age : ℚ) (hlo : 0 ≤ age) (hhi : age ≤ 60) :
    (∃ i : Fin 10, age = anchorAge i) ∨
    (∃ i : Fin 9, lowAnchor i < age ∧ age < highAnchor i) := by
  rcases eq_or_lt_of_le hlo with h0 | h0
  · exact .inl ⟨⟨0, by norm_num⟩, by norm_num [anchorAge]; linarith⟩
  rcases lt_trichotomy age 3 with h3 | h3 | h3
  · exact .inr ⟨⟨0, by norm_num⟩, by norm_num [lowAnchor]; linarith, by norm_num [highAnchor]; linarith⟩
  · exact .inl ⟨⟨1, by norm_num⟩, by norm_num [anchorAge]; linarith⟩
  rcases lt_trichotomy age 6 with h6 | h6 | h6
  · exact .inr ⟨⟨1, by norm_num⟩, by norm_num [lowAnchor]; linarith, by norm_num [highAnchor]; linarith⟩
  · exact .inl ⟨⟨2, by norm_num⟩, by norm_num [anchorAge]; linarith⟩
  rcases lt_trichotomy age 9 with h9 | h9 | h9
  · exact .inr ⟨⟨2, by norm_num⟩, by norm_num [lowAnchor]; linarith, by norm_num [highAnchor]; linarith⟩
  · exact .inl ⟨⟨3, by norm_num⟩, by norm_num [anchorAge]; linarith⟩
  rcases lt_trichotomy age 12 with h12 | h12 | h12
  · exact .inr ⟨⟨3, by norm_num⟩, by norm_num [lowAnchor]; linarith, by norm_num [highAnchor]; linarith⟩
  · exact .inl ⟨⟨4, by norm_num⟩, by norm_num [anchorAge]; linarith⟩
  rcases lt_trichotomy age 18 with h18 | h18 | h18
  · exact .inr ⟨⟨4, by norm_num⟩, by norm_num [lowAnchor]; linarith, by norm_num [highAnchor]; linarith⟩
  · exact .inl ⟨⟨5, by norm_num⟩, by norm_num [anchorAge]; linarith⟩
  rcases lt_trichotomy age 24 with h24 | h24 | h24
  · exact .inr ⟨⟨5, by norm_num⟩, by norm_num [lowAnchor]; linarith, by norm_num [highAnchor]; linarith⟩
  · exact .inl ⟨⟨6, by norm_num⟩, by norm_num [anchorAge]; linarith⟩
  rcases lt_trichotomy age 36 with h36 | h36 | h36
  · exact .inr ⟨⟨6, by norm_num⟩, by norm_num [lowAnchor]; linarith, by norm_num [highAnchor]; linarith⟩
  · exact .inl ⟨⟨7, by norm_num⟩, by norm_num [anchorAge]; linarith⟩
  rcases lt_trichotomy age 48 with h48 | h48 | h48
  · exact .inr ⟨⟨7, by norm_num⟩, by norm_num [lowAnchor]; linarith, by norm_num [highAnchor]; linarith⟩
  · exact .inl ⟨⟨8, by norm_num⟩, by norm_num [anchorAge]; linarith⟩
  rcases lt_trichotomy age 60 with h60 | h60 | h60
  · exact .inr ⟨⟨8, by norm_num⟩, by norm_num [lowAnchor]; linarith, by norm_num [highAnchor]; linarith⟩
  · exact .inl ⟨⟨9, by norm_num⟩, by norm_num [anchorAge]; linarith⟩
  · exact absurd hhi (not_le.mpr h60)

theorem sd_ge_interval (i : Fin 9) (age : ℚ)
    (h1 : lowAnchor i < age) (h2 : age < highAnchor i) (s : Sex) :
    (1.9 : ℚ) ≤ (get_height_for_age_reference age s).2 := by
  obtain ⟨_, hsd, hlow⟩ := table_facts i s
  have hq := lowAnchor_lt_highAnchor i
  have hw0 : 0 ≤ (age - lowAnchor i) / (highAnchor i - lowAnchor i) :=
    div_nonneg (by linarith) (by linarith)
  rw [lookup_interp i age h1 h2 s]
  simp only [interpPair]
  linarith [convex_le_left hw0 hsd]

theorem closest_within_six (age : ℚ) (h0 : 0 ≤ age) (h60 : age ≤ 60) :
    |closest_age age - age| ≤ 6 := by
  rcases age_cases age h0 h60 with ⟨i, hi⟩ | ⟨i, hlo, hhi⟩
  · rw [hi, closest_age_anchorAge]
    simp
  · have hgap := gap_le_twelve i
    rcases closest_age_between i age hlo hhi with ⟨hm, hc⟩ | ⟨hm, hc⟩
    · rw [hc, abs_of_nonpos (by linarith)]
      linarith
    · rw [hc, abs_of_nonneg (by linarith)]
      linarith


/-- C1: classification of a z-score depends on the z-score alone, never on
the model probability: `z < -3` gives SeverelyStunted with is_stunted true,
`-3 ≤ z < -2` gives Stunted with is_stunted true, `z ≥ -2` gives Normal with
is_stunted false; two scorers that differ arbitrarily yield the same
classification and flag on every record. -/
theorem classify_intervals :
    (∀ z : ℚ, z < -3 → classify z = (WhoClass.SeverelyStunted, true)) ∧
    (∀ z : ℚ, -3 ≤ z → z < -2 → classify z = (WhoClass.Stunted, true)) ∧
    (∀ z : ℚ, -2 ≤ z → classify z = (WhoClass.Normal, false)) ∧
    (∀ f g : ChildRecord → ℚ, ∀ r : ChildRecord,
      (predict_stunting f r).who_classification =
        (predict_stunting g r).who_classification ∧
      (predict_stunting f r).stunting_prediction =
        (predict_stunting g r).stunting_prediction) := by
  refine ⟨?_, ?_, ?_, ?_⟩
  · intro z h
    simp only [classify]
    rw [if_pos h]
  · intro z h1 h2
    simp only [classify]
    rw [if_neg (not_lt.mpr h1), if_pos h2]
  · intro z h
    simp only [classify]
    rw [if_neg (not_lt.mpr (by linarith : (-3 : ℚ) ≤ z)), if_neg (not_lt.mpr h)]
  · intro f g r
    exact ⟨rfl, rfl⟩

/-- Witness for the classification intervals at concrete z-scores. -/
theorem classify_intervals_witness :
    classify (-4) = (WhoClass.SeverelyStunted, true) ∧
    classify (-2.5) = (WhoClass.Stunted, true) ∧
    classify 0 = (WhoClass.Normal, false) :=
  ⟨classify_intervals.1 (-4) (by norm_num),
   classify_intervals.2.1 (-2.5) (by norm_num) (by norm_num),
   classify_intervals.2.2.1 0 (by norm_num)⟩

/-- C2 counterexample: at the boundaries the code returns Stunted for
z = -3.0 (not SeverelyStunted) and Normal for z = -2.0 (not Stunted),
because both comparisons in the source are strict. -/
theorem classify_boundary_counterexample :
    classify (-3) ≠ (WhoClass.SeverelyStunted, true) ∧
    classify (-2) ≠ (WhoClass.Stunted, true) := by
  constructor <;> norm_num [classify] <;> decide

/-- C2 amended: boundary values behave as the strict comparisons dictate:
z = -3.0 gives Stunted, z = -2.0 gives Normal, z = -1.999 gives Normal. -/
theorem classify_boundary_amended :
    classify (-3) = (WhoClass.Stunted, true) ∧
    classify (-2) = (WhoClass.Normal, false) ∧
    classify (-1.999) = (WhoClass.Normal, false) := by
  refine ⟨?_, ?_, ?_⟩ <;> norm_num [classify]

/-- C3: the z-score is exactly (height - median) / sd with no clamping, and
at the exact male anchor age 12 (median 76.0, SD 2.8) a height of 75.0 gives
z = -5/14 ≈ -0.357, classified Normal with is_stunted false. -/
theorem zscore_formula_normal_example :
    (∀ h a : ℚ, ∀ s : Sex, calculate_height_for_age_z h a s =
        (h - (get_height_for_age_reference a s).1) /
          (get_height_for_age_reference a s).2) ∧
    get_height_for_age_reference 12 Sex.M = (76.0, 2.8) ∧
    calculate_height_for_age_z 75 12 Sex.M = -5 / 14 ∧
    classify (calculate_height_for_age_z 75 12 Sex.M) = (WhoClass.Normal, false) := by
  have hl : get_height_for_age_reference 12 Sex.M = (76.0, 2.8) := by
    have h := lookup_anchor ⟨4, by norm_num⟩ Sex.M
    simp only [anchorAge] at h
    exact h.trans (by norm_num [sexSelect, refValues])
  have hz : calculate_height_for_age_z 75 12 Sex.M = -5 / 14 := by
    simp only [calculate_height_for_age_z, hl]
    norm_num
  refine ⟨fun h a s => rfl, hl, hz, ?_⟩
  rw [hz]
  norm_num [classify]

/-- C4 counterexample: at the exact female anchor age 24 the table holds
SD 3.4, not 2.5, so the lookup is not (86.4, 2.5) and the z-score of height
79.0 is not -2.96. -/
theorem female24_reference_counterexample :
    get_height_for_age_reference 24 Sex.F ≠ (86.4, 2.5) ∧
    calculate_height_for_age_z 79 24 Sex.F ≠ -2.96 := by
  have hl : get_height_for_age_reference 24 Sex.F = (86.4, 3.4) := by
    have h := lookup_anchor ⟨6, by norm_num⟩ Sex.F
    simp only [anchorAge] at h
    exact h.trans (by norm_num [sexSelect, refValues])
  have hz : calculate_height_for_age_z 79 24 Sex.F = -37 / 17 := by
    simp only [calculate_height_for_age_z, hl]
    norm_num
  constructor
  · rw [hl]
    norm_num
  · rw [hz]
    norm_num

/-- C4 amended: for sex F at anchor age 24 the lookup returns median 86.4
and SD 3.4; height 79.0 gives z = -37/17 ≈ -2.18, category Stunted with
is_stunted true, and height 70.0 gives z = -82/17 ≈ -4.82, category
SeverelyStunted. -/
theorem female24_examples_amended :
    get_height_for_age_reference 24 Sex.F = (86.4, 3.4) ∧
    calculate_height_for_age_z 79 24 Sex.F = -37 / 17 ∧
    classify (calculate_height_for_age_z 79 24 Sex.F) = (WhoClass.Stunted, true) ∧
    calculate_height_for_age_z 70 24 Sex.F = -82 / 17 ∧
    classify (calculate_height_for_age_z 70 24 Sex.F) =
      (WhoClass.SeverelyStunted, true) := by
  have hl : get_height_for_age_reference 24 Sex.F = (86.4, 3.4) := by
    have h := lookup_anchor ⟨6, by norm_num⟩ Sex.F
    simp only [anchorAge] at h
    exact h.trans (by norm_num [sexSelect, refValues])
  have hz79 : calculate_height_for_age_z 79 24 Sex.F = -37 / 17 := by
    simp only [calculate_height_for_age_z, hl]
    norm_num
  have hz70 : calculate_height_for_age_z 70 24 Sex.F = -82 / 17 := by
    simp only [calculate_height_for_age_z, hl]
    norm_num
  refine ⟨hl, hz79, ?_, hz70, ?_⟩
  · rw [hz79]
    norm_num [classify]
  · rw [hz70]
    norm_num [classify]
/-- C5: for every anchor age A in the table and every sex S, the reference
lookup returns exactly the table's literal (median, SD) pair for A and S,
with no interpolation applied. -/
theorem anchor_lookup_literal :
    get_height_for_age_reference 0 Sex.M = (49.9, 1.9) ∧
    get_height_for_age_reference 0 Sex.F = (49.1, 1.9) ∧
    get_height_for_age_reference 3 Sex.M = (61.4, 2.4) ∧
    get_height_for_age_reference 3 Sex.F = (59.8, 2.4) ∧
    get_height_for_age_reference 6 Sex.M = (67.6, 2.5) ∧
    get_height_for_age_reference 6 Sex.F = (65.7, 2.5) ∧
    get_height_for_age_reference 9 Sex.M = (72.3, 2.7) ∧
    get_height_for_age_reference 9 Sex.F = (70.4, 2.7) ∧
    get_height_for_age_reference 12 Sex.M = (76.0, 2.8) ∧
    get_height_for_age_reference 12 Sex.F = (74.3, 2.8) ∧
    get_height_for_age_reference 18 Sex.M = (82.4, 3.1) ∧
    get_height_for_age_reference 18 Sex.F = (80.7, 3.1) ∧
    get_height_for_age_reference 24 Sex.M = (87.8, 3.4) ∧
    get_height_for_age_reference 24 Sex.F = (86.4, 3.4) ∧
    get_height_for_age_reference 36 Sex.M = (96.1, 3.8) ∧
    get_height_for_age_reference 36 Sex.F = (95.1, 3.9) ∧
    get_height_for_age_reference 48 Sex.M = (102.9, 4.2) ∧
    get_height_for_age_reference 48 Sex.F = (101.9, 4.3) ∧
    get_height_for_age_reference 60 Sex.M = (109.1, 4.5) ∧
    get_height_for_age_reference 60 Sex.F = (108.4, 4.6) :=
  ⟨(by
    have h := lookup_anchor ⟨0, by norm_num⟩ Sex.M
    simp only [anchorAge] at h
    exact h.trans (by norm_num [sexSelect, refValues])),
   (by
    have h := lookup_anchor ⟨0, by norm_num⟩ Sex.F
    simp only [anchorAge] at h
    exact h.trans (by norm_num [sexSelect, refValues])),
   (by
    have h := lookup_anchor ⟨1, by norm_num⟩ Sex.M
    simp only [anchorAge] at h
    exact h.trans (by norm_num [sexSelect, refValues])),
   (by
    have h := lookup_anchor ⟨1, by norm_num⟩ Sex.F
    simp only [anchorAge] at h
    exact h.trans (by norm_num [sexSelect, refValues])),
   (by
    have h := lookup_anchor ⟨2, by norm_num⟩ Sex.M
    simp only [anchorAge] at h
    exact h.trans (by norm_num [sexSelect, refValues])),
   (by
    have h := lookup_anchor ⟨2, by norm_num⟩ Sex.F
    simp only [anchorAge] at h
    exact h.trans (by norm_num [sexSelect, refValues])),
   (by
    have h := lookup_anchor ⟨3, by norm_num⟩ Sex.M
    simp only [anchorAge] at h
    exact h.trans (by norm_num [sexSelect, refValues])),
   (by
    have h := lookup_anchor ⟨3, by norm_num⟩ Sex.F
    simp only [anchorAge] at h
    exact h.trans (by norm_num [sexSelect, refValues])),
   (by
    have h := lookup_anchor ⟨4, by norm_num⟩ Sex.M
    simp only [anchorAge] at h
    exact h.trans (by norm_num [sexSelect, refValues])),
   (by
    have h := lookup_anchor ⟨4, by norm_num⟩ Sex.F
    simp only [anchorAge] at h
    exact h.trans (by norm_num [sexSelect, refValues])),
   (by
    have h := lookup_anchor ⟨5, by norm_num⟩ Sex.M
    simp only [anchorAge] at h
    exact h.trans (by norm_num [sexSelect, refValues])),
   (by
    have h := lookup_anchor ⟨5, by norm_num⟩ Sex.F
    simp only [anchorAge] at h
    exact h.trans (by norm_num [sexSelect, refValues])),
   (by
    have h := lookup_anchor ⟨6, by norm_num⟩ Sex.M
    simp only [anchorAge] at h
    exact h.trans (by norm_num [sexSelect, refValues])),
   (by
    have h := lookup_anchor ⟨6, by norm_num⟩ Sex.F
    simp only [anchorAge] at h
    exact h.trans (by norm_num [sexSelect, refValues])),
   (by
    have h := lookup_anchor ⟨7, by norm_num⟩ Sex.M
    simp only [anchorAge] at h
    exact h.trans (by norm_num [sexSelect, refValues])),
   (by
    have h := lookup_anchor ⟨7, by norm_num⟩ Sex.F
    simp only [anchorAge] at h
    exact h.trans (by norm_num [sexSelect, refValues])),
   (by
    have h := lookup_anchor ⟨8, by norm_num⟩ Sex.M
    simp only [anchorAge] at h
    exact h.trans (by norm_num [sexSelect, refValues])),
   (by
    have h := lookup_anchor ⟨8, by norm_num⟩ Sex.F
    simp only [anchorAge] at h
    exact h.trans (by norm_num [sexSelect, refValues])),
   (by
    have h := lookup_anchor ⟨9, by norm_num⟩ Sex.M
    simp only [anchorAge] at h
    exact h.trans (by norm_num [sexSelect, refValues])),
   (by
    have h := lookup_anchor ⟨9, by norm_num⟩ Sex.F
    simp only [anchorAge] at h
    exact h.trans (by norm_num [sexSelect, refValues]))⟩

/-- C6: for every age strictly between two adjacent anchor ages and every
sex, the lookup linearly interpolates median and SD independently with
weight w = (age - lowAge) / (highAge - lowAge), and the interpolated median
lies between the two anchors' medians. -/
theorem lookup_interpolates_between_adjacent :
    ∀ i : Fin 9, ∀ age : ℚ, lowAnchor i < age → age < highAnchor i → ∀ s : Sex,
      get_height_for_age_reference age s =
        interpPair s (lowAnchor i) (highAnchor i) age ∧
      min (sexSelect s (refValues (lowAnchor i))).1
          (sexSelect s (refValues (highAnchor i))).1 ≤
        (get_height_for_age_reference age s).1 ∧
      (get_height_for_age_reference age s).1 ≤
        max (sexSelect s (refValues (lowAnchor i))).1
          (sexSelect s (refValues (highAnchor i))).1 := by
  intro i age h1 h2 s
  have hint := lookup_interp i age h1 h2 s
  obtain ⟨hmono, -, -⟩ := table_facts i s
  have hq := lowAnchor_lt_highAnchor i
  have hw0 : 0 ≤ (age - lowAnchor i) / (highAnchor i - lowAnchor i) :=
    div_nonneg (by linarith) (by linarith)
  have hw1 : (age - lowAnchor i) / (highAnchor i - lowAnchor i) ≤ 1 := by
    rw [div_le_one (by linarith)]
    linarith
  refine ⟨hint, ?_, ?_⟩
  · rw [hint, min_eq_left hmono]
    simp only [interpPair]
    exact convex_le_left hw0 hmono
  · rw [hint, max_eq_right hmono]
    simp only [interpPair]
    exact convex_le_right hw1 hmono

/-- Witness for interpolation at age 13 between anchors 12 and 18, male. -/
theorem lookup_interpolates_between_adjacent_witness :
    get_height_for_age_reference 13 Sex.M =
      interpPair Sex.M (lowAnchor ⟨4, by norm_num⟩) (highAnchor ⟨4, by norm_num⟩) 13 ∧
    min (sexSelect Sex.M (refValues (lowAnchor ⟨4, by norm_num⟩))).1
        (sexSelect Sex.M (refValues (highAnchor ⟨4, by norm_num⟩))).1 ≤
      (get_height_for_age_reference 13 Sex.M).1 ∧
    (get_height_for_age_reference 13 Sex.M).1 ≤
      max (sexSelect Sex.M (refValues (lowAnchor ⟨4, by norm_num⟩))).1
        (sexSelect Sex.M (refValues (highAnchor ⟨4, by norm_num⟩))).1 :=
  lookup_interpolates_between_adjacent ⟨4, by norm_num⟩ 13
    (by norm_num [lowAnchor]) (by norm_num [highAnchor]) Sex.M

/-- C7: at body length 0 the code's BMI expression divides by a zero
denominator ((0/100)^2 = 0); the source has no validation and raises no
InvalidInputError. -/
theorem bmi_zero_length_division :
    bmi 12 0 = 12 / ((0 : ℚ) / 100) ^ 2 ∧ ((0 : ℚ) / 100) ^ 2 = 0 :=
  ⟨rfl, by norm_num⟩

/-- C8: the batch loop sits inside a single try/except, so one row whose
scorer raises makes the whole batch return a single error: a three-record
batch whose second record fails produces no result list at all. -/
theorem batch_aborts_on_row_failure :
    run_batch errScore [recM, recF, recM] = .error .unknownCategory ∧
    ∀ l : List PredictionResult, run_batch errScore [recM, recF, recM] ≠ .ok l := by
  have h : run_batch errScore [recM, recF, recM] = .error .unknownCategory := by
    simp [run_batch, predict_stunting_E, errScore, recM, recF]
  exact ⟨h, fun l hl => by rw [h] at hl; exact Except.noConfusion hl⟩

/-- C9: for every integer age in [0, 60] and every sex, the SD returned by
the reference lookup is at least 1.9, hence strictly positive, so the
z-score division never divides by zero for in-range ages. -/
theorem sd_positive_in_range :
    ∀ n : ℕ, n ≤ 60 → ∀ s : Sex,
      (1.9 : ℚ) ≤ (get_height_for_age_reference (n : ℚ) s).2 ∧
      0 < (get_height_for_age_reference (n : ℚ) s).2 := by
  intro n hn s
  have h0 : (0 : ℚ) ≤ (n : ℚ) := Nat.cast_nonneg n
  have h60 : ((n : ℚ)) ≤ 60 := by exact_mod_cast hn
  have key : (1.9 : ℚ) ≤ (get_height_for_age_reference (n : ℚ) s).2 := by
    rcases age_cases (n : ℚ) h0 h60 with ⟨i, hi⟩ | ⟨i, hlo, hhi⟩
    · rw [hi, lookup_anchor]
      exact anchor_sd i s
    · exact sd_ge_interval i _ hlo hhi s
  exact ⟨key, by linarith⟩

/-- Witness for SD positivity at age 30 months, male. -/
theorem sd_positive_in_range_witness :
    (1.9 : ℚ) ≤ (get_height_for_age_reference ((30 : ℕ) : ℚ) Sex.M).2 ∧
    0 < (get_height_for_age_reference ((30 : ℕ) : ℚ) Sex.M).2 :=
  sd_positive_in_range 30 (by norm_num) Sex.M

/-- C10: for every integer age in [0, 60] the nearest anchor is at most 6
months away, and the lookup resolves every such age either as an exact
anchor or by interpolation between the two adjacent anchors bracketing it;
the more-than-12-months fallback and the no-adjacent-anchor edge branch are
never taken in range. -/
theorem inrange_lookup_bracketed :
    ∀ n : ℕ, n ≤ 60 →
      |closest_age (n : ℚ) - (n : ℚ)| ≤ 6 ∧
      (((n : ℚ) ∈ childAnchors ∧ lookupBranch (n : ℚ) = .exactAnchor) ∨
       ∃ i : Fin 9, lookupBranch (n : ℚ) =
           .interpolated (lowAnchor i) (highAnchor i) ∧
         lowAnchor i < (n : ℚ) ∧ (n : ℚ) < highAnchor i) := by
  intro n hn
  have h0 : (0 : ℚ) ≤ (n : ℚ) := Nat.cast_nonneg n
  have h60 : ((n : ℚ)) ≤ 60 := by exact_mod_cast hn
  refine ⟨closest_within_six _ h0 h60, ?_⟩
  rcases age_cases _ h0 h60 with ⟨i, hi⟩ | ⟨i, hlo, hhi⟩
  · exact .inl ⟨by rw [hi]; exact anchor_mem i, by rw [hi]; exact branch_anchor i⟩
  · exact .inr ⟨i, branch_eval_interp i _ hlo hhi, hlo, hhi⟩

/-- Witness for the bracketing property at age 13 months. -/
theorem inrange_lookup_bracketed_witness :
    |closest_age ((13 : ℕ) : ℚ) - ((13 : ℕ) : ℚ)| ≤ 6 ∧
    ((((13 : ℕ) : ℚ) ∈ childAnchors ∧ lookupBranch ((13 : ℕ) : ℚ) = .exactAnchor) ∨
     ∃ i : Fin 9, lookupBranch ((13 : ℕ) : ℚ) =
         .interpolated (lowAnchor i) (highAnchor i) ∧
       lowAnchor i < ((13 : ℕ) : ℚ) ∧ ((13 : ℕ) : ℚ) < highAnchor i) :=
  inrange_lookup_bracketed 13 (by norm_num)
